import Mathlib

/-!
# Verification of the `wrapi` request/response pipeline

A shallow embedding of the `wrapi` crate (files `src/request.rs`,
`src/error.rs`, `src/parameters.rs`) in Lean 4, together with theorems
settling the specification's claims about it.

Modelling conventions:

* `serde_json::Value` is modelled by the inductive `Value`.
* `http::StatusCode` is a wrapped numeric code; `is_success`,
  `is_client_error` and `is_server_error` follow the `http` crate's
  documented ranges (2xx / 4xx / 5xx).
* `reqwest` is an external collaborator.  A `Response` carries a status
  and a raw body string; JSON decoding (`Response::json::<T>()`) is
  performed by `serde`, so the generic decoders appear as explicit
  function arguments `decValue` / `decT` (the Lean image of the
  `DeserializeOwned` dictionaries), returning `Except String α` the way
  `serde_json::from_*` returns `Result<T, serde_json::Error>` whose
  error displays as a message.
* The `reqwest::RequestBuilder` is modelled as the request's method and
  url plus the ordered list of builder operations applied to it; each
  builder method appends its operation.  Network dispatch
  (`RequestBuilder::send()`) is an explicit function argument
  `dispatch`, failing with an opaque transport error (`Unit`).
* The trait `Request<T>` is modelled as a record `RequestDescriptor S`
  bundling the per-type accessor functions (`Serialize` becomes the
  explicit `serialize` field); trait default methods become default
  record fields.
-/

namespace Wrapi

/-- `serde_json::Value`: a generic JSON value. -/
inductive Value where
  | null
  | bool (b : Bool)
  | num (n : Int)
  | str (s : String)
  | arr (items : List Value)
  | obj (fields : List (String × Value))

/-- `http::StatusCode`: the numeric HTTP status code. -/
structure StatusCode where
  code : Nat
deriving Repr, DecidableEq

/-- `StatusCode::is_success` from the `http` crate: 200–299. -/
def StatusCode.is_success (s : StatusCode) : Bool :=
  200 ≤ s.code && s.code ≤ 299

/-- `StatusCode::is_client_error` from the `http` crate: 400–499. -/
def StatusCode.is_client_error (s : StatusCode) : Bool :=
  400 ≤ s.code && s.code ≤ 499

/-- `StatusCode::is_server_error` from the `http` crate: 500–599. -/
def StatusCode.is_server_error (s : StatusCode) : Bool :=
  500 ≤ s.code && s.code ≤ 599

/-- The `Error` enum of `src/error.rs`.  Note: in the source,
`ClientDecodeError` is declared there as a fieldless variant (and its
`Display` impl prints a fixed string), even though `src/request.rs`
line 149 tries to construct it with a message payload; we embed the
declared type. -/
inductive Error where
  /-- API response with possible body -/
  | ResponseError (payload : StatusCode × Option Value)
  /-- Generic HTTP client error -/
  | ClientError
  /-- HTTP client failed to decode/deserialize response -/
  | ClientDecodeError

/-- A completed `reqwest::Response`: status code plus raw body. -/
structure Response where
  status : StatusCode
  body : String

/-- `reqwest::Response::error_for_status_ref`: `Err` exactly when the
status is a client error (4xx) or a server error (5xx). -/
def Response.error_for_status_ref (r : Response) : Except Unit Unit :=
  if r.status.is_client_error || r.status.is_server_error then
    .error ()
  else
    .ok ()

/-- `http::Method` (an arbitrary method token; e.g. `"GET"`, `"POST"`). -/
abbrev Method := String

/-- `http::HeaderMap`: an ordered multimap of header name/value pairs. -/
abbrev HeaderMap := List (String × String)

/-- One operation applied to a `reqwest::RequestBuilder`. -/
inductive BuilderOp where
  | headers (h : HeaderMap)
  | query (q : List (String × String))
  | form (f : List (String × String))
  | bearer_auth (token : String)
  | basic_auth (username : String) (password : Option String)
  | json (body : Value)

/-- `reqwest::RequestBuilder`: method, url, and the ordered list of
builder operations applied so far. -/
structure RequestBuilder where
  method : Method
  url : String
  ops : List BuilderOp

/-- `reqwest::Client` (configuration is irrelevant to this layer). -/
structure Client where
  mk ::
deriving Repr, DecidableEq

/-- `Client::request(method, url)`: a fresh builder. -/
def Client.request (_client : Client) (method : Method) (url : String) :
    RequestBuilder :=
  { method := method, url := url, ops := [] }

/-- `RequestBuilder::headers`. -/
def RequestBuilder.headers (r : RequestBuilder) (h : HeaderMap) :
    RequestBuilder :=
  { r with ops := r.ops ++ [.headers h] }

/-- `RequestBuilder::query`. -/
def RequestBuilder.query (r : RequestBuilder) (q : List (String × String)) :
    RequestBuilder :=
  { r with ops := r.ops ++ [.query q] }

/-- `RequestBuilder::form`. -/
def RequestBuilder.form (r : RequestBuilder) (f : List (String × String)) :
    RequestBuilder :=
  { r with ops := r.ops ++ [.form f] }

/-- `RequestBuilder::bearer_auth`. -/
def RequestBuilder.bearer_auth (r : RequestBuilder) (token : String) :
    RequestBuilder :=
  { r with ops := r.ops ++ [.bearer_auth token] }

/-- `RequestBuilder::basic_auth`. -/
def RequestBuilder.basic_auth (r : RequestBuilder) (username : String)
    (password : Option String) : RequestBuilder :=
  { r with ops := r.ops ++ [.basic_auth username password] }

/-- `RequestBuilder::json(body)`: attach the serialized body. -/
def RequestBuilder.json (r : RequestBuilder) (body : Value) : RequestBuilder :=
  { r with ops := r.ops ++ [.json body] }

/-- The trait `Request<T>` of `src/request.rs`, as a record of the
descriptor type's accessors.  Default record values mirror the trait's
default method bodies (lines 24–62). -/
structure RequestDescriptor (S : Type) where
  /-- The `Serialize` bound on `Self`. -/
  serialize : S → Value
  /-- Endpoint to perform the request for -/
  endpoint : S → String
  /-- HTTP method to use -/
  method : S → Method
  /-- Header parameters to include in the request (default `None`) -/
  headers : S → Option HeaderMap := fun _ => none
  /-- Query parameters to include in the request (default `None`) -/
  query : S → Option (List (String × String)) := fun _ => none
  /-- Form parameters to include in the request (default `None`) -/
  form : S → Option (List (String × String)) := fun _ => none
  /-- Bearer token to include in the request (default `None`) -/
  bearer : S → Option String := fun _ => none
  /-- Username and password (default `None`) -/
  basic_auth : S → Option (String × Option String) := fun _ => none
  /-- The body of the request; returns `Some(self)` by default -/
  body : S → Option S := fun s => some s

/-- The default implementation of `Request::body` (request.rs lines
59–62): `Some(self)`. -/
def default_body {S : Type} (s : S) : Option S :=
  some s

/-- `Request::build` (request.rs lines 69–104): start from
`client.request(method, format!("{}/{}", base_url, endpoint))`, then
apply headers, query, form, bearer token, basic auth, and JSON body,
each only when present. -/
def build {S : Type} (R : RequestDescriptor S) (s : S) (client : Client)
    (base_url : String) : RequestBuilder :=
  let request := client.request (R.method s) (base_url ++ "/" ++ R.endpoint s)
  let request := match R.headers s with
    | some headers => request.headers headers
    | none => request
  let request := match R.query s with
    | some query => request.query query
    | none => request
  let request := match R.form s with
    | some form => request.form form
    | none => request
  let request := match R.bearer s with
    | some bearer => request.bearer_auth bearer
    | none => request
  let request := match R.basic_auth s with
    | some (username, password) => request.basic_auth username password
    | none => request
  let request := match R.body s with
    | some body => request.json (R.serialize body)
    | none => request
  request

/-- `Request::check_response` (request.rs lines 164–176): if
`error_for_status_ref` fails, return `ResponseError` with the status
and the body parsed as a generic JSON `Value` (best effort, `.ok()`);
otherwise pass the response through. -/
def check_response (decValue : String → Except String Value)
    (response : Response) : Except Error Response :=
  match response.error_for_status_ref with
  | .error _ =>
      .error (.ResponseError (response.status, (decValue response.body).toOption))
  | .ok _ => .ok response

/-- `Request::from_response` (request.rs lines 142–151): apply
`check_response`, then decode the body as `T`; a decode failure maps to
`ClientDecodeError`.  (The source passes `inner.to_string()` to the
constructor, but the `Error` type declared in `src/error.rs` has no
payload field on `ClientDecodeError`, so the message has nowhere to
live.) -/
def from_response {T : Type} (decValue : String → Except String Value)
    (decT : String → Except String T) (response : Response) :
    Except Error T :=
  match check_response decValue response with
  | .error e => .error e
  | .ok resp =>
      match decT resp.body with
      | .ok t => .ok t
      | .error _inner => .error .ClientDecodeError

/-- `Request::from_response_opt` (request.rs lines 154–159): apply
`check_response`, then decode the body as `T`, converting the decode
result with `.ok()` so a failure becomes `None`. -/
def from_response_opt {T : Type} (decValue : String → Except String Value)
    (decT : String → Except String T) (response : Response) :
    Except Error (Option T) :=
  match check_response decValue response with
  | .error e => .error e
  | .ok resp => .ok (decT resp.body).toOption

/-- `Request::exec` (request.rs lines 119–125): dispatch the builder;
a transport failure maps to `ClientError`, a completed response is fed
to `from_response`. -/
def exec {T : Type} (dispatch : RequestBuilder → Except Unit Response)
    (decValue : String → Except String Value)
    (decT : String → Except String T) (builder : RequestBuilder) :
    Except Error T :=
  match dispatch builder with
  | .error _ => .error .ClientError
  | .ok response => from_response decValue decT response

/-- `Request::exec_opt` (request.rs lines 133–139): dispatch the
builder; a transport failure maps to `ClientError`, a completed
response is fed to `from_response_opt`. -/
def exec_opt {T : Type} (dispatch : RequestBuilder → Except Unit Response)
    (decValue : String → Except String Value)
    (decT : String → Except String T) (builder : RequestBuilder) :
    Except Error (Option T) :=
  match dispatch builder with
  | .error _ => .error .ClientError
  | .ok response => from_response_opt decValue decT response

/-- `Request::send` (request.rs lines 107–111): build, then exec. -/
def send {S T : Type} (R : RequestDescriptor S) (s : S) (client : Client)
    (base_url : String) (dispatch : RequestBuilder → Except Unit Response)
    (decValue : String → Except String Value)
    (decT : String → Except String T) : Except Error T :=
  let request := build R s client base_url
  exec dispatch decValue decT request

/-- The `Parameters` struct of `src/parameters.rs` (lines 7–12). -/
structure Parameters where
  headers : Option HeaderMap
  query : Option (List (String × String))
  form : Option (List (String × String))

/-- `Parameters::new` (parameters.rs lines 15–21). -/
def Parameters.new : Parameters :=
  { headers := none, query := none, form := none }

/-- `Parameters::headers` (parameters.rs lines 23–26); named
`with_headers` because the field projection takes the source name. -/
def Parameters.with_headers (p : Parameters) (headers : HeaderMap) :
    Parameters :=
  { p with headers := some headers }

/-- `Parameters::query` (parameters.rs lines 28–31); named `with_query`
because the field projection takes the source name. -/
def Parameters.with_query (p : Parameters)
    (query : List (String × String)) : Parameters :=
  { p with query := some query }

/-- `Parameters::form` (parameters.rs lines 33–36); named `with_form`
because the field projection takes the source name. -/
def Parameters.with_form (p : Parameters)
    (form : List (String × String)) : Parameters :=
  { p with form := some form }

/-! ## Concrete instances used by witnesses and counterexamples -/

/-- A toy generic-JSON decoder standing in for `serde_json` on concrete
inputs: accepts `"null"`, rejects everything else. -/
def decValueToy (s : String) : Except String Value :=
  if s = "null" then .ok Value.null else .error "invalid JSON"

/-- A toy `T`-decoder on concrete inputs: accepts `"42"`. -/
def decNatToy (s : String) : Except String Nat :=
  if s = "42" then .ok 42 else .error ("invalid number: " ++ s)

/-- A second toy `T`-decoder failing with a different diagnostic. -/
def decNatToy2 (s : String) : Except String Nat :=
  if s = "42" then .ok 42 else .error "some other diagnostic"

/-- A success response whose body decodes as `Nat`. -/
def r200 : Response := { status := { code := 200 }, body := "42" }

/-- A success response whose body fails to decode as `Nat`. -/
def r200bad : Response := { status := { code := 200 }, body := "oops" }

/-- A redirect-class response: not 2xx, not 4xx/5xx. -/
def r304 : Response := { status := { code := 304 }, body := "null" }

/-- A client-error response with a JSON body. -/
def r422 : Response := { status := { code := 422 }, body := "null" }

/-- The `CreateUserRequest` payload type of the crate's doc example. -/
structure CreateUserRequest where
  name : String

/-- The doc example's descriptor: `POST user`, default body. -/
def createUserDesc : RequestDescriptor CreateUserRequest :=
  { serialize := fun u => Value.obj [("name", Value.str u.name)]
    endpoint := fun _ => "user"
    method := fun _ => "POST" }

/-- A bodyless variant: `GET user` with `body()` overridden to `None`. -/
def getUserDesc : RequestDescriptor CreateUserRequest :=
  { serialize := fun u => Value.obj [("name", Value.str u.name)]
    endpoint := fun _ => "user"
    method := fun _ => "GET"
    body := fun _ => none }

/-- A dispatch function that always fails at the transport level. -/
def failingDispatch : RequestBuilder → Except Unit Response :=
  fun _ => .error ()

/-! ## Helper lemmas shared by the claim theorems -/

/-- Closed form of `check_response`: `ResponseError` exactly on 4xx/5xx
statuses, pass-through otherwise. -/
theorem check_response_eq (decValue : String → Except String Value)
    (r : Response) :
    check_response decValue r =
      if r.status.is_client_error || r.status.is_server_error then
        .error (.ResponseError (r.status, (decValue r.body).toOption))
      else .ok r := by
  by_cases h : (r.status.is_client_error || r.status.is_server_error) = true
  · simp [check_response, Response.error_for_status_ref, h]
  · simp [check_response, Response.error_for_status_ref, h]

/-- A 2xx status is neither a client error nor a server error, so
`check_response` passes a success-status response through. -/
theorem check_response_pass_of_success
    (decValue : String → Except String Value) (r : Response)
    (hs : r.status.is_success = true) :
    check_response decValue r = .ok r := by
  rw [check_response_eq]
  have hc : (r.status.is_client_error || r.status.is_server_error) = false := by
    simp only [StatusCode.is_success, Bool.and_eq_true, decide_eq_true_eq] at hs
    simp only [StatusCode.is_client_error, StatusCode.is_server_error,
      Bool.or_eq_false_iff, Bool.and_eq_false_iff, decide_eq_false_iff_not,
      not_le]
    omega
  rw [hc]
  rfl

/-- Closed form of `build`: method, plainly concatenated url, and the
six optional operations in their fixed order. -/
theorem build_eq {S : Type} (R : RequestDescriptor S) (s : S)
    (client : Client) (base_url : String) :
    build R s client base_url =
      { method := R.method s
        url := base_url ++ "/" ++ R.endpoint s
        ops := List.reduceOption
          [(R.headers s).map BuilderOp.headers,
           (R.query s).map BuilderOp.query,
           (R.form s).map BuilderOp.form,
           (R.bearer s).map BuilderOp.bearer_auth,
           (R.basic_auth s).map (fun p => BuilderOp.basic_auth p.1 p.2),
           (R.body s).map (fun b => BuilderOp.json (R.serialize b))] } := by
  unfold build Client.request RequestBuilder.headers RequestBuilder.query
    RequestBuilder.form RequestBuilder.bearer_auth RequestBuilder.basic_auth
    RequestBuilder.json
  rcases R.headers s with _ | h <;>
    rcases R.query s with _ | q <;>
    rcases R.form s with _ | f <;>
    rcases R.bearer s with _ | b <;>
    rcases R.basic_auth s with _ | ⟨u, pw⟩ <;>
    rcases R.body s with _ | d <;>
    simp [List.reduceOption]

/-- Any error produced by `from_response_opt` is the `ResponseError`
coming from classification. -/
theorem from_response_opt_error_shape {T : Type}
    (decValue : String → Except String Value)
    (decT : String → Except String T) (r : Response) (e : Error)
    (he : from_response_opt decValue decT r = .error e) :
    ∃ payload, e = .ResponseError payload := by
  unfold from_response_opt at he
  rw [check_response_eq] at he
  by_cases hc : (r.status.is_client_error || r.status.is_server_error) = true
  · rw [if_pos hc] at he
    simp only [Except.error.injEq] at he
    exact ⟨_, he.symm⟩
  · rw [if_neg hc] at he
    simp at he

/-! ## Claim theorems -/

/-- C1 (counterexample): a 304 response has a non-success status, yet
`check_response` passes it through unchanged instead of returning
`ResponseError`, refuting the claim as stated. -/
theorem check_response_not_success_counterexample :
    StatusCode.is_success { code := 304 } = false ∧
    check_response decValueToy r304 = .ok r304 :=
  ⟨rfl, rfl⟩

/-- C1 (amended): `check_response` returns `ResponseError` carrying
exactly the response's status, together with `some json` when the body
parses as generic JSON and `none` otherwise, precisely when the status
is a client or server error (400–599); every other response — including
non-2xx statuses outside 400–599 — is passed through unchanged. -/
theorem check_response_classification
    (decValue : String → Except String Value) (r : Response) :
    check_response decValue r =
      if r.status.is_client_error || r.status.is_server_error then
        .error (.ResponseError (r.status, (decValue r.body).toOption))
      else .ok r :=
  check_response_eq decValue r

/-- C2: for every success-status response, when the body decodes as `T`
both `from_response` and `from_response_opt` return the decoded value
(the latter wrapped in `some`); when the body fails to decode,
`from_response` returns `ClientDecodeError` while `from_response_opt`
returns the successful outcome `none`. -/
theorem success_decode_behaviour {T : Type}
    (decValue : String → Except String Value)
    (decT : String → Except String T) (r : Response)
    (hs : r.status.is_success = true) :
    (∀ t, decT r.body = .ok t →
        from_response decValue decT r = .ok t ∧
        from_response_opt decValue decT r = .ok (some t)) ∧
    (∀ msg, decT r.body = .error msg →
        from_response decValue decT r = .error .ClientDecodeError ∧
        from_response_opt decValue decT r = .ok none) := by
  have hpass := check_response_pass_of_success decValue r hs
  constructor
  · intro t ht
    constructor <;>
      simp [from_response, from_response_opt, hpass, ht, Except.toOption]
  · intro msg hm
    constructor <;>
      simp [from_response, from_response_opt, hpass, hm, Except.toOption]

/-- C2 (witness): a 200 response with body `"42"` decodes to `42` on
both paths. -/
theorem success_decode_behaviour_witness :
    from_response decValueToy decNatToy r200 = .ok 42 ∧
    from_response_opt decValueToy decNatToy r200 = .ok (some 42) :=
  (success_decode_behaviour decValueToy decNatToy r200 rfl).1 42 rfl

/-- C3: at a success-status response whose body fails to decode, the
error returned by `from_response` is the bare `ClientDecodeError` of
`src/error.rs`, which has no payload field: two decoders that fail with
different diagnostic messages produce the identical error value, so the
decoder's message is not carried anywhere. -/
theorem client_decode_error_carries_no_message :
    from_response decValueToy decNatToy r200bad = .error .ClientDecodeError ∧
    from_response decValueToy decNatToy2 r200bad =
      from_response decValueToy decNatToy r200bad :=
  ⟨rfl, rfl⟩

/-- C4: whenever the transport step fails (no HTTP response produced),
`exec` and `exec_opt` return `ClientError`, for every builder — hence
regardless of the descriptor it was built from — and no response value
exists for any later step to touch. -/
theorem transport_failure_yields_client_error {T : Type}
    (dispatch : RequestBuilder → Except Unit Response)
    (decValue : String → Except String Value)
    (decT : String → Except String T) (b : RequestBuilder)
    (h : dispatch b = .error ()) :
    exec dispatch decValue decT b = .error .ClientError ∧
    exec_opt dispatch decValue decT b = .error .ClientError := by
  constructor <;> simp [exec, exec_opt, h]

/-- C4 (witness): a failing dispatch on the doc example's built request
yields `ClientError` on both paths. -/
theorem transport_failure_yields_client_error_witness :
    exec failingDispatch decValueToy decNatToy
        (build createUserDesc { name := "John Doe" } Client.mk "http://api") =
      .error .ClientError ∧
    exec_opt failingDispatch decValueToy decNatToy
        (build createUserDesc { name := "John Doe" } Client.mk "http://api") =
      .error .ClientError :=
  transport_failure_yields_client_error failingDispatch decValueToy decNatToy
    (build createUserDesc { name := "John Doe" } Client.mk "http://api") rfl

/-- C5: `build` produces exactly the descriptor's method, the
concatenated url, and the builder operations in the fixed order
headers, query, form, bearer token, basic auth, JSON body — each
present exactly when the corresponding accessor returns a value; `build`
is a pure function into the builder data type and performs no dispatch. -/
theorem build_applies_fields_in_order {S : Type} (R : RequestDescriptor S)
    (s : S) (client : Client) (base_url : String) :
    build R s client base_url =
      { method := R.method s
        url := base_url ++ "/" ++ R.endpoint s
        ops := List.reduceOption
          [(R.headers s).map BuilderOp.headers,
           (R.query s).map BuilderOp.query,
           (R.form s).map BuilderOp.form,
           (R.bearer s).map BuilderOp.bearer_auth,
           (R.basic_auth s).map (fun p => BuilderOp.basic_auth p.1 p.2),
           (R.body s).map (fun b => BuilderOp.json (R.serialize b))] } :=
  build_eq R s client base_url

/-- C6: when `body()` returns `none` the built request carries no JSON
payload; the default `body()` implementation returns `some self`, and
whenever `body()` agrees with the default the built request's JSON
payload is the descriptor's own serialized form. -/
theorem body_none_no_json_payload {S : Type} (R : RequestDescriptor S)
    (s : S) (client : Client) (base_url : String) :
    default_body s = some s ∧
    (R.body s = none →
      ∀ v, BuilderOp.json v ∉ (build R s client base_url).ops) ∧
    (R.body s = default_body s →
      BuilderOp.json (R.serialize s) ∈ (build R s client base_url).ops) := by
  refine ⟨rfl, ?_, ?_⟩
  · intro hnone v
    rw [build_eq]
    simp only [hnone, Option.map_none]
    rcases R.headers s with _ | h <;>
      rcases R.query s with _ | q <;>
      rcases R.form s with _ | f <;>
      rcases R.bearer s with _ | b <;>
      rcases R.basic_auth s with _ | ⟨u, pw⟩ <;>
      simp [List.reduceOption]
  · intro hdef
    rw [build_eq]
    simp only [hdef, default_body, Option.map_some]
    rcases R.headers s with _ | h <;>
      rcases R.query s with _ | q <;>
      rcases R.form s with _ | f <;>
      rcases R.bearer s with _ | b <;>
      rcases R.basic_auth s with _ | ⟨u, pw⟩ <;>
      simp [List.reduceOption]

/-- C6 (witness): the default-body descriptor's built request carries
its serialized form as JSON payload; the `body() = None` descriptor's
built request carries none. -/
theorem body_none_no_json_payload_witness :
    BuilderOp.json (Value.obj [("name", Value.str "John Doe")]) ∈
      (build createUserDesc { name := "John Doe" } Client.mk "http://api").ops ∧
    BuilderOp.json (Value.obj [("name", Value.str "John Doe")]) ∉
      (build getUserDesc { name := "John Doe" } Client.mk "http://api").ops :=
  ⟨(body_none_no_json_payload createUserDesc { name := "John Doe" } Client.mk
      "http://api").2.2 rfl,
   (body_none_no_json_payload getUserDesc { name := "John Doe" } Client.mk
      "http://api").2.1 rfl (Value.obj [("name", Value.str "John Doe")])⟩

/-- C7: the built request's url is exactly `base_url ++ "/" ++
endpoint`, for every base url string and every descriptor, with no
normalization of leading or trailing slashes in either part. -/
theorem build_url_is_plain_concatenation {S : Type}
    (R : RequestDescriptor S) (s : S) (client : Client) (base_url : String) :
    (build R s client base_url).url = base_url ++ "/" ++ R.endpoint s := by
  rw [build_eq]

/-- C8: `send` is exactly the composition of `build` followed by
`exec`, for every descriptor, client, base url, dispatch and decoders. -/
theorem send_is_build_then_exec {S T : Type} (R : RequestDescriptor S)
    (s : S) (client : Client) (base_url : String)
    (dispatch : RequestBuilder → Except Unit Response)
    (decValue : String → Except String Value)
    (decT : String → Except String T) :
    send R s client base_url dispatch decValue decT =
      exec dispatch decValue decT (build R s client base_url) :=
  rfl

/-- C9: `from_response_opt` never returns `ClientDecodeError` — its
only possible error is the `ResponseError` from classification — and
`exec_opt` adds only `ClientError` from the transport step; every decode
failure is mapped to the successful outcome `none`. -/
theorem opt_path_never_decode_error {T : Type}
    (dispatch : RequestBuilder → Except Unit Response)
    (decValue : String → Except String Value)
    (decT : String → Except String T) (r : Response) (b : RequestBuilder) :
    from_response_opt decValue decT r ≠ .error .ClientDecodeError ∧
    exec_opt dispatch decValue decT b ≠ .error .ClientDecodeError ∧
    (∀ e, from_response_opt decValue decT r = .error e →
        ∃ payload, e = .ResponseError payload) ∧
    (∀ e, exec_opt dispatch decValue decT b = .error e →
        e = .ClientError ∨ ∃ payload, e = .ResponseError payload) := by
  have hshape := from_response_opt_error_shape decValue decT r
  have hexec : ∀ e, exec_opt dispatch decValue decT b = .error e →
      e = .ClientError ∨ ∃ payload, e = .ResponseError payload := by
    intro e he
    unfold exec_opt at he
    cases hd : dispatch b with
    | error u =>
        rw [hd] at he
        simp only [Except.error.injEq] at he
        exact .inl he.symm
    | ok resp =>
        rw [hd] at he
        exact .inr (from_response_opt_error_shape decValue decT resp e he)
  refine ⟨?_, ?_, hshape, hexec⟩
  · intro hbad
    rcases hshape _ hbad with ⟨payload, hp⟩
    cases hp
  · intro hbad
    rcases hexec _ hbad with hp | ⟨payload, hp⟩ <;> cases hp

/-- C9 (witness): on a success-status response whose body fails to
decode, the optional path does not return `ClientDecodeError`. -/
theorem opt_path_never_decode_error_witness :
    from_response_opt decValueToy decNatToy r200bad ≠
      .error .ClientDecodeError :=
  (opt_path_never_decode_error failingDispatch decValueToy decNatToy r200bad
    (Client.mk.request "GET" "u")).1

/-- C10: `Parameters::new` has all three fields absent, and each of the
three builder methods sets exactly its own field to the supplied value
(overwriting any previous one) while leaving the other two unchanged. -/
theorem parameters_builder_frame (p : Parameters) (h : HeaderMap)
    (q f : List (String × String)) :
    (Parameters.new.headers = none ∧ Parameters.new.query = none ∧
      Parameters.new.form = none) ∧
    ((p.with_headers h).headers = some h ∧
      (p.with_headers h).query = p.query ∧
      (p.with_headers h).form = p.form) ∧
    ((p.with_query q).query = some q ∧
      (p.with_query q).headers = p.headers ∧
      (p.with_query q).form = p.form) ∧
    ((p.with_form f).form = some f ∧
      (p.with_form f).headers = p.headers ∧
      (p.with_form f).query = p.query) :=
  ⟨⟨rfl, rfl, rfl⟩, ⟨rfl, rfl, rfl⟩, ⟨rfl, rfl, rfl⟩, ⟨rfl, rfl, rfl⟩⟩

end Wrapi
